import Mathlib

/-!
Verification development for the reconciliation core of the FnA-work
repository, file src/agents/reconciliation_tracer.py.

The embedding models the deterministic reconciliation subsystem:
the number extractor, the amount comparator, the verdict generator,
the three-stage workflow over the mutable ReconciliationState record,
and the in-memory trace store with its metrics and export operations.

Modelling conventions:
- Python float values are modelled as rationals.  Every numeric
  comparison exercised by the verified properties is far from any
  binary rounding boundary, so the rational model agrees with the
  double-precision behaviour on all stated facts.
- Python strings are Lean strings; the substring test used by the
  verdict generator is implemented directly over the character list.
- Wall-clock timestamps are modelled as abstract rational time points
  carried in the trace record; trace identifiers, which the source
  derives from the current time, are passed in as parameters.
- The free-text narration strings logged by each stage are abstracted
  to the logged step names: no verified property concerns the
  narration text, only the order and count of the logged steps and the
  snapshotted state fields.
- File-system writing in the JSON export is outside the embedding:
  export is modelled as producing the export document, with the
  failure return False modelled as none.
-/

attribute [local semireducible] Rat.add Rat.mul Rat.inv Rat.sub Rat.ofScientific

deriving instance DecidableEq for Except

/-- Characters treated as whitespace by the Python str.strip method. -/
def isPySpace (c : Char) : Bool :=
  c == ' ' || c == '\t' || c == '\n' || c == '\r' || c == '\x0b' || c == '\x0c'

/-- Strip leading and trailing Python whitespace from a character list. -/
def pyStrip (l : List Char) : List Char :=
  ((l.dropWhile isPySpace).reverse.dropWhile isPySpace).reverse

/-- Does pattern p occur at the head of l. -/
def subAt : List Char → List Char → Bool
  | [], _ => true
  | _ :: _, [] => false
  | p :: ps, c :: cs => p == c && subAt ps cs

/-- Does pattern pat occur anywhere in l; model of the Python in operator. -/
def hasSubL (pat : List Char) : List Char → Bool
  | [] => subAt pat []
  | l@(_ :: t) => subAt pat l || hasSubL pat t

/-- Model of the Python substring containment test: sub in s. -/
def pyContains (s sub : String) : Bool :=
  hasSubL sub.data s.data

/-- Decimal digit list to natural number. -/
def digitsToNat (l : List Char) : ℕ :=
  l.foldl (fun a c => 10 * a + (c.toNat - 48)) 0

/-- Model of the Python float builtin applied to a string: optional
whitespace, optional sign, decimal mantissa with optional fraction and
optional exponent.  The inf, nan and underscore forms of the builtin
are outside the use made of it by the reconciliation module, which only
feeds it decimal representations.  On failure the ValueError message is
modelled without the quoting of the offending text. -/
def pyFloat (s : String) : Except String ℚ :=
  let err : Except String ℚ :=
    Except.error ("could not convert string to float: " ++ s)
  let l := pyStrip s.data
  let sgnRest : ℚ × List Char :=
    match l with
    | '-' :: r => (-1, r)
    | '+' :: r => (1, r)
    | _ => (1, l)
  let ipRest := sgnRest.2.span Char.isDigit
  let fpRest : List Char × List Char :=
    match ipRest.2 with
    | '.' :: r => r.span Char.isDigit
    | _ => ([], ipRest.2)
  if ipRest.1.isEmpty && fpRest.1.isEmpty then err
  else
    let mant : ℚ :=
      (digitsToNat ipRest.1 : ℚ) + (digitsToNat fpRest.1 : ℚ) / (10 : ℚ) ^ fpRest.1.length
    match fpRest.2 with
    | [] => Except.ok (sgnRest.1 * mant)
    | 'e' :: r =>
      let esgnRest : ℤ × List Char :=
        match r with
        | '-' :: t => (-1, t)
        | '+' :: t => (1, t)
        | _ => (1, r)
      let edRest := esgnRest.2.span Char.isDigit
      if edRest.1.isEmpty || !edRest.2.isEmpty then err
      else Except.ok (sgnRest.1 * mant * (10 : ℚ) ^ (esgnRest.1 * digitsToNat edRest.1))
    | 'E' :: r =>
      let esgnRest : ℤ × List Char :=
        match r with
        | '-' :: t => (-1, t)
        | '+' :: t => (1, t)
        | _ => (1, r)
      let edRest := esgnRest.2.span Char.isDigit
      if edRest.1.isEmpty || !edRest.2.isEmpty then err
      else Except.ok (sgnRest.1 * mant * (10 : ℚ) ^ (esgnRest.1 * digitsToNat edRest.1))
    | _ => err

/-- One attempt of the regex pattern for signed decimals at the current
position: optional sign, optional integer digits, optional point,
mandatory final digit run.  Returns the matched characters and the
remaining input, mirroring greedy matching with backtracking of the
Python pattern used by the extractor. -/
def matchAt (l : List Char) : Option (List Char × List Char) :=
  let sgnRest : List Char × List Char :=
    match l with
    | c :: rest => if c == '+' || c == '-' then ([c], rest) else ([], l)
    | [] => ([], [])
  let intRun := sgnRest.2.span Char.isDigit
  if !intRun.1.isEmpty then
    match intRun.2 with
    | '.' :: l3 =>
      let fracRun := l3.span Char.isDigit
      if !fracRun.1.isEmpty then
        some (sgnRest.1 ++ intRun.1 ++ '.' :: fracRun.1, fracRun.2)
      else
        some (sgnRest.1 ++ intRun.1, intRun.2)
    | _ => some (sgnRest.1 ++ intRun.1, intRun.2)
  else
    match intRun.2 with
    | '.' :: l3 =>
      let fracRun := l3.span Char.isDigit
      if !fracRun.1.isEmpty then
        some (sgnRest.1 ++ '.' :: fracRun.1, fracRun.2)
      else none
    | _ => none

/-- Left-to-right scan collecting all non-overlapping matches of the
signed-decimal pattern; fuel bounds the recursion and is instantiated
with the input length, which suffices because every step consumes at
least one character. -/
def findAllAux : ℕ → List Char → List (List Char)
  | 0, _ => []
  | _, [] => []
  | fuel + 1, l@(_ :: rest) =>
    match matchAt l with
    | some mr => mr.1 :: findAllAux fuel mr.2
    | none => findAllAux fuel rest

/-- Model of re.findall with the signed-decimal pattern of the source. -/
def findAll (s : String) : List String :=
  (findAllAux s.data.length s.data).map (fun l => String.mk l)

/-- The cleaning step of the extractor: remove the currency symbols and
comma separators, then strip surrounding whitespace. -/
def cleanText (text : String) : String :=
  String.mk (pyStrip (text.data.filter
    (fun c => !(c == '$' || c == ',' || c == '€' || c == '£'))))

/-- Embedding of the private extractor method of ReconciliationTracer:
returns none for empty input, scans the cleaned text for all
signed-decimal tokens, converts each non-empty token with the float
builtin, and returns the maximum of the converted values; a conversion
failure is caught and collapses the whole extraction to none, mirroring
the surrounding exception handler of the source. -/
def extract_number (text : String) : Option ℚ :=
  if text = "" then none
  else
    let foundMatches := findAll (cleanText text)
    if foundMatches.isEmpty then none
    else
      match (foundMatches.filter (fun m => !(m == ""))).mapM pyFloat with
      | Except.error _ => none
      | Except.ok numbers =>
        match numbers with
        | [] => none
        | h :: t => some (t.foldl max h)

/-- The list of numeric values successfully converted from the matched
tokens of a text; empty when a conversion fails, mirroring the aborted
comprehension of the source. -/
def extract_values (text : String) : List ℚ :=
  match ((findAll (cleanText text)).filter (fun m => !(m == ""))).mapM pyFloat with
  | Except.error _ => []
  | Except.ok numbers => numbers

/-- Round a non-negative rational to the nearest integer, ties to even,
the rounding used when formatting to a fixed number of decimals. -/
def roundHalfEven (x : ℚ) : ℤ :=
  let n := x.floor
  let r := x - (n : ℚ)
  if r < 1 / 2 then n
  else if 1 / 2 < r then n + 1
  else if n % 2 = 0 then n else n + 1

/-- Insert thousands separators into a reversed digit list. -/
def group3Aux : List Char → List Char
  | [] => []
  | [d1] => [d1]
  | [d1, d2] => [d1, d2]
  | [d1, d2, d3] => [d1, d2, d3]
  | d1 :: d2 :: d3 :: rest => d1 :: d2 :: d3 :: ',' :: group3Aux rest

/-- Insert thousands separators into a decimal digit string. -/
def group3 (digits : List Char) : List Char :=
  (group3Aux digits.reverse).reverse

/-- Two-digit zero-padded rendering of a value below one hundred. -/
def pad2 (n : ℕ) : String :=
  if n < 10 then "0" ++ toString n else toString n

/-- Model of the Python format spec ,.2f: sign, comma-grouped integer
part, and exactly two decimals. -/
def fmtComma2 (x : ℚ) : String :=
  let c := (roundHalfEven (|x| * 100)).toNat
  (if x < 0 then "-" else "")
    ++ String.mk (group3 (toString (c / 100)).data)
    ++ "." ++ pad2 (c % 100)

/-- Model of the Python format spec .2f: sign, integer part, and
exactly two decimals, without grouping. -/
def fmt2 (x : ℚ) : String :=
  let c := (roundHalfEven (|x| * 100)).toNat
  (if x < 0 then "-" else "") ++ toString (c / 100) ++ "." ++ pad2 (c % 100)

/-- Decimal digits of the fractional part of a value in the unit
interval; fuel bounds the expansion, ample for every value produced by
the extractor within the verified properties. -/
def fracDigitsAux : ℕ → ℚ → String
  | 0, _ => ""
  | n + 1, x =>
    if x = 0 then ""
    else
      let d := (x * 10).floor
      String.mk [Char.ofNat (48 + d.toNat)] ++ fracDigitsAux n (x * 10 - (d : ℚ))

/-- Model of the Python str builtin on a float value with a plain
decimal representation: minimal digits, at least one decimal place. -/
def floatRepr (q : ℚ) : String :=
  let a := |q|
  let ipart := a.floor
  let frac := fracDigitsAux 64 (a - (ipart : ℚ))
  (if q < 0 then "-" else "")
    ++ toString ipart.toNat ++ "." ++ (if frac = "" then "0" else frac)

/-- The mutable state record threaded through the LangGraph workflow,
mirroring the ReconciliationState TypedDict of the source.  The
thinking log is kept as the ordered list of logged step names. -/
structure RState where
  invoice_amount : String
  spreadsheet_amount : String
  reconciliation_result : String
  verdict : String
  thinking_log : List String
  trace_id : String
  workflow_step : String
  error : String
deriving DecidableEq

/-- One entry appended to the trace by the logging helper: the step
name together with the snapshot of the key state fields taken by the
source at logging time. -/
structure StepRecord where
  step : String
  workflow_step : String
  invoice_amount : String
  spreadsheet_amount : String
  verdict : String
deriving DecidableEq

/-- Embedding of the private logging helper: extends the thinking log
of the state and produces the step record appended to the trace. -/
def _log_thinking (step_name : String) (s : RState) : RState × StepRecord :=
  ({ s with thinking_log := s.thinking_log ++ [step_name] },
   { step := step_name
     workflow_step := s.workflow_step
     invoice_amount := s.invoice_amount
     spreadsheet_amount := s.spreadsheet_amount
     verdict := s.verdict })

/-- Node 1 of the workflow: sets the workflow step, extracts numeric
values from both raw amount strings, and writes them back as decimal
strings, falling back to the string 0 when extraction produced none.
The surrounding exception handler of the source is unreachable here:
the extractor catches its own conversion failures and every remaining
operation of the stage body is total. -/
def parse_amounts_node (s : RState) : RState × StepRecord :=
  let s1 := { s with workflow_step := "parse_amounts" }
  let invoice_number := extract_number s1.invoice_amount
  let spreadsheet_number := extract_number s1.spreadsheet_amount
  let s2 := { s1 with
    invoice_amount :=
      match invoice_number with
      | some v => floatRepr v
      | none => "0"
    spreadsheet_amount :=
      match spreadsheet_number with
      | some v => floatRepr v
      | none => "0" }
  _log_thinking "parsing" s2

/-- The comparator core of node 2, exactly the arithmetic of the
source: absolute difference, percentage difference guarded by the test
that the maximum is positive, and the match flag comparing the
percentage against the tolerance constant 0.01. -/
def compare_core (invoice_val spreadsheet_val : ℚ) : ℚ × ℚ × Bool :=
  let difference := |invoice_val - spreadsheet_val|
  let percentage_diff :=
    if max invoice_val spreadsheet_val > 0 then
      difference / max invoice_val spreadsheet_val * 100
    else 0
  let tolerance : ℚ := 0.01
  (difference, percentage_diff, decide (percentage_diff ≤ tolerance))

/-- The comparison summary string built by node 2 from the comparator
core, with the two-decimal currency formatting of the source. -/
def comparison_result_str (invoice_val spreadsheet_val : ℚ) : String :=
  let c := compare_core invoice_val spreadsheet_val
  if c.2.2 then
    "MATCH: Invoice amount $" ++ fmtComma2 invoice_val
      ++ " matches spreadsheet amount $" ++ fmtComma2 spreadsheet_val
      ++ " (difference: $" ++ fmtComma2 c.1 ++ ")"
  else
    "MISMATCH: Invoice amount $" ++ fmtComma2 invoice_val
      ++ " does not match spreadsheet amount $" ++ fmtComma2 spreadsheet_val
      ++ " (difference: $" ++ fmtComma2 c.1 ++ ", " ++ fmt2 c.2.1 ++ "%)"

/-- The guarded body of node 2: converting the two stored amount
strings with the float builtin may fail, and a failure is surfaced as
the exception value caught at the stage boundary. -/
def compare_try (s : RState) : Except String RState :=
  match pyFloat s.invoice_amount with
  | Except.error e => Except.error e
  | Except.ok invoice_val =>
    match pyFloat s.spreadsheet_amount with
    | Except.error e => Except.error e
    | Except.ok spreadsheet_val =>
      Except.ok { s with
        reconciliation_result := comparison_result_str invoice_val spreadsheet_val }

/-- Node 2 of the workflow: sets the workflow step, runs the guarded
comparison body, and on an exception records the message in the error
field and stores the degraded comparison result, exactly as the except
clause of the source does. -/
def compare_amounts_node (s : RState) : RState × StepRecord :=
  let s1 := { s with workflow_step := "compare_amounts" }
  let s2 :=
    match compare_try s1 with
    | Except.ok t => t
    | Except.error e =>
      { s1 with
        error := e
        reconciliation_result := "Error comparing amounts: " ++ e }
  _log_thinking "comparison" s2

/-- The verdict decision of node 3, exactly the if chain of the
source: the MATCH test runs first and the MISMATCH test second, and
the result is the verdict code together with its reasoning line. -/
def verdictOf (reconciliation_result : String) : String × String :=
  if pyContains reconciliation_result "MATCH" then
    ("YES", "The amounts from the invoice and spreadsheet match within acceptable tolerance.")
  else if pyContains reconciliation_result "MISMATCH" then
    ("NO", "The amounts from the invoice and spreadsheet do not match. Investigation required.")
  else
    ("INCONCLUSIVE", "Unable to determine match due to data processing errors.")

/-- The fixed recommendation lookup of the source. -/
def _get_recommendation (verdict : String) : String :=
  if verdict = "YES" then
    "Amounts are reconciled. Proceed with processing."
  else if verdict = "NO" then
    "Amounts do not match. Review source documents and resolve discrepancies before proceeding."
  else
    "Manual review required to determine data accuracy."

/-- The composite verdict report assembled by node 3, preserving the
field order and labels of the source f-string. -/
def verdict_statement (verdict reasoning reconciliation_result recommendation : String) : String :=
  "\nRECONCILIATION VERDICT: " ++ verdict
    ++ "\n\nANALYSIS:\n" ++ reasoning
    ++ "\n\nDETAILS:\n" ++ reconciliation_result
    ++ "\n\nRECOMMENDATION:\n" ++ recommendation ++ "\n"

/-- Node 3 of the workflow: sets the workflow step, decides the
verdict from the comparison summary, and stores the composite verdict
report.  The exception handler of the source stage is unreachable:
every operation of the stage body is a total string operation. -/
def generate_verdict_node (s : RState) : RState × StepRecord :=
  let s1 := { s with workflow_step := "generate_verdict" }
  let vr := verdictOf s1.reconciliation_result
  let s2 := { s1 with
    verdict := verdict_statement vr.1 vr.2 s1.reconciliation_result (_get_recommendation vr.1) }
  _log_thinking "verdict" s2

/-- The linear workflow built by the source: parse, then compare, then
verdict, collecting the three step records in execution order. -/
def run_workflow (s0 : RState) : RState × List StepRecord :=
  let p := parse_amounts_node s0
  let c := compare_amounts_node p.1
  let v := generate_verdict_node c.1
  (v.1, [p.2, c.2, v.2])

/-- The initial state literal of reconcile_amounts; the trace
identifier, derived from the clock in the source, is a parameter. -/
def initial_state (tid invoice_amount spreadsheet_amount : String) : RState :=
  { invoice_amount := invoice_amount
    spreadsheet_amount := spreadsheet_amount
    reconciliation_result := ""
    verdict := ""
    thinking_log := []
    trace_id := tid
    workflow_step := ""
    error := "" }

/-- Embedding of reconcile_amounts: create the initial state carrying
the fresh trace identifier and invoke the workflow; the caller
receives the verdict field of the final state. -/
def reconcile_amounts (tid invoice_amount spreadsheet_amount : String) :
    RState × List StepRecord :=
  run_workflow (initial_state tid invoice_amount spreadsheet_amount)

/-- One recorded workflow execution owned by the trace store,
mirroring the per-identifier dictionary of the source: the ordered
step records, the start and end time points, the final result, and
the error set when the workflow itself threw.  The state transition
list exists in the source but is never appended to. -/
structure Trace where
  workflow_steps : List StepRecord
  state_transitions : List String
  start_time : Option ℚ
  end_time : Option ℚ
  result : Option String
  error : Option String
deriving DecidableEq

/-- Python truthiness of the optional error entry of a trace. -/
def truthyError (o : Option String) : Bool :=
  match o with
  | some s => !(s == "")
  | none => false

/-- Embedding of the duration helper: defined only when both the start
and the end time point are present. -/
def _calculate_duration (t : Trace) : Option ℚ :=
  match t.start_time, t.end_time with
  | some a, some b => some (b - a)
  | _, _ => none

/-- The aggregate metrics record returned by the store. -/
structure Metrics where
  total_executions : ℕ
  success_rate : ℚ
  failure_rate : ℚ
  average_duration : ℚ
  min_duration : ℚ
  max_duration : ℚ
  total_thinking_steps : ℕ
deriving DecidableEq

/-- Embedding of get_workflow_metrics: none models the empty
dictionary returned when no trace has been recorded; otherwise every
aggregate is recomputed on demand over the full in-memory set. -/
def get_workflow_metrics (traces : List Trace) : Option Metrics :=
  if traces.isEmpty then none
  else
    let total_traces := traces.length
    let successful_traces := traces.filter (fun t => !(truthyError t.error))
    let failed_traces := traces.filter (fun t => truthyError t.error)
    let valid_durations := traces.filterMap _calculate_duration
    some
      { total_executions := total_traces
        success_rate := (successful_traces.length : ℚ) / (total_traces : ℚ)
        failure_rate := (failed_traces.length : ℚ) / (total_traces : ℚ)
        average_duration :=
          match valid_durations with
          | [] => 0
          | h :: t => (t.foldl (fun a b => a + b) h) / ((valid_durations.length : ℚ))
        min_duration :=
          match valid_durations with
          | [] => 0
          | h :: t => t.foldl min h
        max_duration :=
          match valid_durations with
          | [] => 0
          | h :: t => t.foldl max h
        total_thinking_steps :=
          (traces.map (fun t => t.workflow_steps.length)).foldl (fun a b => a + b) 0 }

/-- The observability block added by get_trace to the returned copy of
a trace.  The narration length total is not modelled because narration
text is abstracted in this embedding. -/
structure Observability where
  total_workflow_steps : ℕ
  execution_duration : Option ℚ
  state_transitions : ℕ
  success_rate : ℚ
deriving DecidableEq

/-- Embedding of get_trace with an explicit requested identifier: a
lookup in the store, returning the trace together with the added
observability block, and none when the identifier is unknown.  A trace
is returned whether or not it has been sealed. -/
def get_trace (trace_data : List (String × Trace)) (trace_id : String) :
    Option (Trace × Observability) :=
  match List.lookup trace_id trace_data with
  | none => none
  | some trace =>
    some (trace,
      { total_workflow_steps := trace.workflow_steps.length
        execution_duration := _calculate_duration trace
        state_transitions := trace.state_transitions.length
        success_rate := if truthyError trace.error then 0 else 1 })

/-- The export document assembled by export_trace_to_json: the trace
view, the metrics snapshot, and the version tag.  The export timestamp
is wall-clock data outside the embedding. -/
structure ExportDoc where
  trace_data : Trace × Observability
  workflow_metrics : Option Metrics
  langraph_version : String
deriving DecidableEq

/-- Embedding of export_trace_to_json with an explicit requested
identifier: none models the early return of False when the trace view
is missing; otherwise the export document is assembled.  The
file-system write of the source is outside the embedding. -/
def export_trace_to_json (trace_data : List (String × Trace)) (trace_id : String) :
    Option ExportDoc :=
  match get_trace trace_data trace_id with
  | none => none
  | some trace_view =>
    some
      { trace_data := trace_view
        workflow_metrics := get_workflow_metrics (trace_data.map Prod.snd)
        langraph_version := "reconciliation_enhanced_tracing" }

/-! Helper lemmas shared by the claim theorems. -/

theorem subAt_append (p : List Char) :
    ∀ l r : List Char, subAt p l = true → subAt p (l ++ r) = true := by
  induction p with
  | nil => intro l r _; rfl
  | cons c cs ih =>
    intro l r h
    cases l with
    | nil => simp [subAt] at h
    | cons d ds =>
      simp only [subAt, Bool.and_eq_true] at h
      simp only [List.cons_append, subAt, Bool.and_eq_true]
      exact ⟨h.1, ih ds r h.2⟩

theorem hasSubL_append_left (pat : List Char) :
    ∀ l r : List Char, hasSubL pat l = true → hasSubL pat (l ++ r) = true := by
  intro l
  induction l with
  | nil =>
    intro r h
    simp only [hasSubL] at h
    cases pat with
    | nil => cases r <;> simp [hasSubL, subAt]
    | cons c cs => simp [subAt] at h
  | cons d ds ih =>
    intro r h
    simp only [hasSubL, Bool.or_eq_true] at h
    rcases h with h | h
    · simp only [List.cons_append, hasSubL, Bool.or_eq_true]
      exact Or.inl (subAt_append pat (d :: ds) r h)
    · simp only [List.cons_append, hasSubL, Bool.or_eq_true]
      exact Or.inr (ih r h)

theorem le_foldl_max (t : List ℚ) :
    ∀ h a : ℚ, (a ≤ h ∨ a ∈ t) → a ≤ t.foldl max h := by
  induction t with
  | nil =>
    intro h a ha
    rcases ha with ha | ha
    · exact ha
    · cases ha
  | cons x xs ih =>
    intro h a ha
    simp only [List.foldl_cons]
    apply ih
    rcases ha with ha | ha
    · exact Or.inl (le_trans ha (le_max_left h x))
    · rcases List.mem_cons.mp ha with ha | ha
      · exact Or.inl (ha ▸ le_max_right h x)
      · exact Or.inr ha

theorem foldl_max_mem (t : List ℚ) :
    ∀ h : ℚ, t.foldl max h = h ∨ t.foldl max h ∈ t := by
  induction t with
  | nil => intro h; exact Or.inl rfl
  | cons x xs ih =>
    intro h
    simp only [List.foldl_cons]
    rcases ih (max h x) with hm | hm
    · rcases max_choice h x with hc | hc
      · exact Or.inl (hm.trans hc)
      · exact Or.inr (List.mem_cons.mpr (Or.inl (hm.trans hc)))
    · exact Or.inr (List.mem_cons.mpr (Or.inr hm))

theorem length_filter_not_add {α : Type} (p : α → Bool) :
    ∀ l : List α, (l.filter (fun x => !(p x))).length + (l.filter p).length = l.length := by
  intro l
  induction l with
  | nil => rfl
  | cons x xs ih =>
    by_cases hx : p x
    · simp [List.filter_cons, hx, ← ih]
      omega
    · simp only [List.filter_cons, hx, Bool.not_false, Bool.not_true, if_true, if_false]
      simp [← ih]
      omega

/-! Claim theorems. -/

/-- C1.  The claim states that every comparison summary containing
MISMATCH yields verdict code NO, the MISMATCH check taking precedence.
The source checks the substring MATCH first, and MATCH is a substring
of MISMATCH, so the genuine mismatch summary produced by the
comparator for 500 versus 400 contains MISMATCH and nevertheless
receives verdict code YES: the NO branch of the verdict generator is
unreachable.  This theorem evaluates the embedded verdict generator at
that failing input. -/
theorem C1_mismatch_summary_yields_yes :
    pyContains (comparison_result_str 500 400) "MISMATCH" = true ∧
    (verdictOf (comparison_result_str 500 400)).1 = "YES" := by
  constructor <;> decide

/-- C2.  The claim states that compare applied to 100.0 and 99.0 gives
a percent difference of 1.0 and a match.  The computed percent
difference is indeed 1, but the source compares the percent-scaled
value against the fraction constant 0.01, so the match flag is false:
a 1.0 percent difference is classified MISMATCH, an effective
tolerance of 0.01 percent despite the comment announcing 1 percent.
This theorem evaluates the embedded comparator core at that input. -/
theorem C2_compare_100_99_mismatch :
    compare_core 100 99 = (1, 1, false) := by
  decide

/-- C3.  The claim states that the run on 500 dollars versus 400
dollars returns verdict code NO while the run on equal 500 dollar
amounts returns YES with a rationale mentioning the tolerance.  The
equal-amount half holds, but the unequal run also produces verdict
code YES, because the mismatch summary contains MATCH as a substring
of MISMATCH and the verdict generator checks MATCH first.  This
theorem evaluates the embedded end-to-end workflow at both inputs. -/
theorem C3_end_to_end_verdicts :
    pyContains ((reconcile_amounts "t1" "$500.00" "$400.00").1.verdict)
      "RECONCILIATION VERDICT: YES" = true ∧
    pyContains ((reconcile_amounts "t2" "$500.00" "$500.00").1.verdict)
      "RECONCILIATION VERDICT: YES" = true ∧
    pyContains ((reconcile_amounts "t2" "$500.00" "$500.00").1.verdict)
      "match within acceptable tolerance" = true := by
  refine ⟨?_, ?_, ?_⟩ <;> decide

/-- C4.  The run on the inputs garbage and the empty string extracts
none from each raw amount, stores the fallback string 0 for both, the
zero-versus-zero comparison has percentage difference 0 with a true
match flag through the positive-maximum guard, and the final verdict
code is YES. -/
theorem C4_garbage_run_yes :
    extract_number "garbage" = none ∧
    extract_number "" = none ∧
    (parse_amounts_node (initial_state "t" "garbage" "")).1.invoice_amount = "0" ∧
    (parse_amounts_node (initial_state "t" "garbage" "")).1.spreadsheet_amount = "0" ∧
    compare_core 0 0 = (0, 0, true) ∧
    pyContains ((reconcile_amounts "t" "garbage" "").1.verdict)
      "RECONCILIATION VERDICT: YES" = true := by
  refine ⟨?_, ?_, ?_, ?_, ?_, ?_⟩ <;> decide

/-- C10.  Whenever the maximum of the two compared amounts is not
positive, in particular when both amounts are negative, the guard of
the percentage computation takes its else branch, the percent
difference is 0, and the pair is classified as a match, because the
guard tests strict positivity of the maximum rather than testing it
for zero. -/
theorem C10_nonpositive_max_matches (a b : ℚ) (h : max a b ≤ 0) :
    (compare_core a b).2.1 = 0 ∧ (compare_core a b).2.2 = true := by
  have hng : ¬ max a b > 0 := not_lt.mpr h
  constructor
  · simp [compare_core, hng]
  · simp [compare_core, hng]
    decide

/-- Witness for C10 at the concrete pair of negative amounts. -/
theorem C10_nonpositive_max_matches_witness :
    max (-5 : ℚ) (-10) ≤ 0 ∧
    ((compare_core (-5) (-10)).2.1 = 0 ∧ (compare_core (-5) (-10)).2.2 = true) :=
  ⟨by decide, C10_nonpositive_max_matches (-5) (-10) (by decide)⟩

/-- C5.  The extractor strips currency symbols and commas, collects
the signed-decimal tokens, and returns the maximum of the successfully
converted values; empty input and input without a numeric token give
none without an exception.  The final clause states the max-of-matches
rule for every input on which extraction succeeds. -/
theorem C5_extract_number_spec :
    extract_number "$1,234.56" = some (1234.56 : ℚ) ∧
    extract_number "" = none ∧
    extract_number "abc" = none ∧
    extract_number "$10 and $20 fee" = some 20 ∧
    (∀ (s : String) (v : ℚ), extract_number s = some v →
      v ∈ extract_values s ∧ ∀ w ∈ extract_values s, w ≤ v) := by
  refine ⟨by decide, by decide, by decide, by decide, ?_⟩
  intro s v h
  by_cases hs : s = ""
  · rw [extract_number, if_pos hs] at h
    cases h
  · rw [extract_number, if_neg hs] at h
    by_cases he : (findAll (cleanText s)).isEmpty
    · simp only [he, if_true] at h
      cases h
    · simp only [he, if_false, Bool.false_eq_true] at h
      cases hmm : ((findAll (cleanText s)).filter (fun m => !(m == ""))).mapM pyFloat with
      | error e =>
        rw [hmm] at h
        cases h
      | ok numbers =>
        rw [hmm] at h
        unfold extract_values
        rw [hmm]
        cases numbers with
        | nil => cases h
        | cons h1 t1 =>
          have hv : t1.foldl max h1 = v := Option.some.inj h
          constructor
          · rw [← hv]
            rcases foldl_max_mem t1 h1 with hm | hm
            · rw [hm]
              exact List.mem_cons.mpr (Or.inl rfl)
            · exact List.mem_cons.mpr (Or.inr hm)
          · intro w hw
            rw [← hv]
            apply le_foldl_max
            rcases List.mem_cons.mp hw with hw | hw
            · exact Or.inl (le_of_eq hw)
            · exact Or.inr hw

/-- Witness for C5 instantiating the max-of-matches clause at the
multi-token input. -/
theorem C5_extract_number_spec_witness :
    extract_number "$10 and $20 fee" = some 20 ∧
    ((20 : ℚ) ∈ extract_values "$10 and $20 fee" ∧
      ∀ w ∈ extract_values "$10 and $20 fee", w ≤ 20) :=
  ⟨by decide, C5_extract_number_spec.2.2.2.2 "$10 and $20 fee" 20 (by decide)⟩

/-- Fields of the parse node untouched by its computation, and the
step record it logs. -/
theorem parse_node_fields (s : RState) :
    (parse_amounts_node s).1.trace_id = s.trace_id ∧
    (parse_amounts_node s).1.workflow_step = "parse_amounts" ∧
    (parse_amounts_node s).2.workflow_step = "parse_amounts" ∧
    (parse_amounts_node s).2.step = "parsing" ∧
    (parse_amounts_node s).1.thinking_log = s.thinking_log ++ ["parsing"] := by
  simp [parse_amounts_node, _log_thinking]

/-- The guarded comparison body only rewrites the comparison summary
field of the state. -/
theorem compare_try_preserves (s t : RState) (h : compare_try s = Except.ok t) :
    t.workflow_step = s.workflow_step ∧ t.trace_id = s.trace_id ∧
    t.thinking_log = s.thinking_log ∧ t.invoice_amount = s.invoice_amount ∧
    t.spreadsheet_amount = s.spreadsheet_amount ∧ t.verdict = s.verdict ∧
    t.error = s.error := by
  unfold compare_try at h
  cases h1 : pyFloat s.invoice_amount with
  | error e => rw [h1] at h; cases h
  | ok invoice_val =>
    rw [h1] at h
    cases h2 : pyFloat s.spreadsheet_amount with
    | error e => rw [h2] at h; cases h
    | ok spreadsheet_val =>
      rw [h2] at h
      have := Except.ok.inj h
      rw [← this]
      simp

/-- Fields of the compare node untouched by its computation, in both
the normal and the exceptional path, and the step record it logs. -/
theorem compare_node_fields (s : RState) :
    (compare_amounts_node s).1.trace_id = s.trace_id ∧
    (compare_amounts_node s).1.workflow_step = "compare_amounts" ∧
    (compare_amounts_node s).2.workflow_step = "compare_amounts" ∧
    (compare_amounts_node s).2.step = "comparison" ∧
    (compare_amounts_node s).1.thinking_log = s.thinking_log ++ ["comparison"] := by
  unfold compare_amounts_node
  cases hc : compare_try { s with workflow_step := "compare_amounts" } with
  | ok t =>
    obtain ⟨hw, ht, hl, _⟩ := compare_try_preserves _ t hc
    simp [_log_thinking, hc, hw, ht, hl]
  | error e =>
    simp [_log_thinking, hc]

/-- Fields of the verdict node untouched by its computation, the step
record it logs, and the shape of the verdict report it stores. -/
theorem gen_node_fields (s : RState) :
    (generate_verdict_node s).1.trace_id = s.trace_id ∧
    (generate_verdict_node s).1.workflow_step = "generate_verdict" ∧
    (generate_verdict_node s).2.workflow_step = "generate_verdict" ∧
    (generate_verdict_node s).2.step = "verdict" ∧
    (generate_verdict_node s).1.thinking_log = s.thinking_log ++ ["verdict"] ∧
    (generate_verdict_node s).1.verdict =
      verdict_statement (verdictOf s.reconciliation_result).1
        (verdictOf s.reconciliation_result).2 s.reconciliation_result
        (_get_recommendation (verdictOf s.reconciliation_result).1) := by
  simp [generate_verdict_node, _log_thinking]

/-- Every verdict report contains its leading verdict label. -/
theorem verdict_statement_contains (a b c d : String) :
    pyContains (verdict_statement a b c d) "RECONCILIATION VERDICT:" = true := by
  unfold pyContains verdict_statement
  simp only [String.data_append, List.append_assoc]
  exact hasSubL_append_left _ _ _ (by decide)

/-- C6.  In every run the recorded workflow step snapshots are exactly
parse_amounts, compare_amounts, generate_verdict in that order with
nothing skipped or repeated, the trace identifier is placed in the
initial state before the first stage, the final state still carries
it, and no stage reassigns it. -/
theorem C6_workflow_step_order (tid inv sp : String) :
    (reconcile_amounts tid inv sp).2.map StepRecord.workflow_step =
      ["parse_amounts", "compare_amounts", "generate_verdict"] ∧
    (initial_state tid inv sp).trace_id = tid ∧
    (reconcile_amounts tid inv sp).1.trace_id = tid ∧
    (∀ s : RState, (parse_amounts_node s).1.trace_id = s.trace_id) ∧
    (∀ s : RState, (compare_amounts_node s).1.trace_id = s.trace_id) ∧
    (∀ s : RState, (generate_verdict_node s).1.trace_id = s.trace_id) := by
  have hp := parse_node_fields (initial_state tid inv sp)
  have hc := compare_node_fields (parse_amounts_node (initial_state tid inv sp)).1
  have hv := gen_node_fields
    (compare_amounts_node (parse_amounts_node (initial_state tid inv sp)).1).1
  refine ⟨?_, rfl, ?_, ?_, ?_, ?_⟩
  · simp [reconcile_amounts, run_workflow, hp.2.2.1, hc.2.2.1, hv.2.2.1]
  · simp only [reconcile_amounts, run_workflow]
    rw [hv.1, hc.1, hp.1]
    rfl
  · exact fun s => (parse_node_fields s).1
  · exact fun s => (compare_node_fields s).1
  · exact fun s => (gen_node_fields s).1

/-- C7.  When the internal computation of the compare stage throws,
the exception is caught at the stage boundary: the message is recorded
in the error field, the degraded comparison summary is stored, the
stage still returns a state, and the downstream verdict stage still
executes, logging its step and storing a verdict report.  The parse
and verdict stage bodies consist of total operations in the source, so
the compare stage conversion of the amount strings is the only
internal computation that can throw; no stage failure propagates an
exception to the caller of the run, which in this embedding is
witnessed by every node being a total function. -/
theorem C7_stage_failure_contained (s : RState) (msg : String)
    (h : compare_try { s with workflow_step := "compare_amounts" } = Except.error msg) :
    (compare_amounts_node s).1.error = msg ∧
    (compare_amounts_node s).1.reconciliation_result = "Error comparing amounts: " ++ msg ∧
    (compare_amounts_node s).1.workflow_step = "compare_amounts" ∧
    (compare_amounts_node s).2.step = "comparison" ∧
    (generate_verdict_node (compare_amounts_node s).1).1.workflow_step = "generate_verdict" ∧
    (generate_verdict_node (compare_amounts_node s).1).2.step = "verdict" ∧
    pyContains ((generate_verdict_node (compare_amounts_node s).1).1.verdict)
      "RECONCILIATION VERDICT:" = true := by
  have hgen := gen_node_fields (compare_amounts_node s).1
  refine ⟨?_, ?_, ?_, ?_, hgen.2.1, hgen.2.2.2.1, ?_⟩
  · simp [compare_amounts_node, _log_thinking, h]
  · simp [compare_amounts_node, _log_thinking, h]
  · simp [compare_amounts_node, _log_thinking, h]
  · simp [compare_amounts_node, _log_thinking, h]
  · rw [hgen.2.2.2.2.2]
    exact verdict_statement_contains _ _ _ _

/-- Witness for C7 at a state whose invoice amount string is not
numeric, so the float conversion of the compare stage throws. -/
theorem C7_stage_failure_contained_witness :
    (compare_try { initial_state "t" "abc" "5" with workflow_step := "compare_amounts" } =
      Except.error "could not convert string to float: abc") ∧
    ((compare_amounts_node (initial_state "t" "abc" "5")).1.error =
        "could not convert string to float: abc" ∧
      (compare_amounts_node (initial_state "t" "abc" "5")).1.reconciliation_result =
        "Error comparing amounts: " ++ "could not convert string to float: abc" ∧
      (compare_amounts_node (initial_state "t" "abc" "5")).1.workflow_step =
        "compare_amounts" ∧
      (compare_amounts_node (initial_state "t" "abc" "5")).2.step = "comparison" ∧
      (generate_verdict_node
          (compare_amounts_node (initial_state "t" "abc" "5")).1).1.workflow_step =
        "generate_verdict" ∧
      (generate_verdict_node
          (compare_amounts_node (initial_state "t" "abc" "5")).1).2.step = "verdict" ∧
      pyContains ((generate_verdict_node
          (compare_amounts_node (initial_state "t" "abc" "5")).1).1.verdict)
        "RECONCILIATION VERDICT:" = true) :=
  ⟨by decide,
    C7_stage_failure_contained (initial_state "t" "abc" "5")
      "could not convert string to float: abc" (by decide)⟩

/-- C8.  For a non-empty store of recorded runs the metrics report a
failure rate equal to the number of error-carrying traces over the
total and a success rate equal to the remaining traces over the total,
both recomputed over the full in-memory set. -/
theorem C8_metrics_rates (traces : List Trace) (h : traces ≠ []) :
    ∃ m, get_workflow_metrics traces = some m ∧
      m.failure_rate =
        ((traces.filter (fun t => truthyError t.error)).length : ℚ) / (traces.length : ℚ) ∧
      m.success_rate =
        ((traces.length : ℚ) - ((traces.filter (fun t => truthyError t.error)).length : ℚ)) /
          (traces.length : ℚ) := by
  have hne : traces.isEmpty = false := by
    cases traces with
    | nil => exact absurd rfl h
    | cons a l => rfl
  have hcast : ((traces.filter (fun t => !(truthyError t.error))).length : ℚ) =
      (traces.length : ℚ) - ((traces.filter (fun t => truthyError t.error)).length : ℚ) := by
    have hsum := length_filter_not_add (fun t => truthyError t.error) traces
    have hq := congrArg (fun n : ℕ => (n : ℚ)) hsum
    push_cast at hq
    linarith
  unfold get_workflow_metrics
  rw [hne]
  simp only [Bool.false_eq_true, if_false]
  exact ⟨_, rfl, rfl, by rw [← hcast]⟩

/-- A sealed successful trace used by concrete store examples. -/
def c8TraceOk : Trace :=
  { workflow_steps := [], state_transitions := [], start_time := some 0,
    end_time := some 1, result := some "ok", error := none }

/-- A trace carrying a workflow error, used by concrete store examples. -/
def c8TraceBad : Trace :=
  { workflow_steps := [], state_transitions := [], start_time := some 0,
    end_time := some 2, result := none, error := some "boom" }

/-- A concrete two-trace store with one failure. -/
def c8Store : List Trace := [c8TraceOk, c8TraceBad]

/-- Witness for C8 on the concrete two-trace store. -/
theorem C8_metrics_rates_witness :
    c8Store ≠ [] ∧
    (∃ m, get_workflow_metrics c8Store = some m ∧
      m.failure_rate =
        ((c8Store.filter (fun t => truthyError t.error)).length : ℚ) / (c8Store.length : ℚ) ∧
      m.success_rate =
        ((c8Store.length : ℚ) - ((c8Store.filter (fun t => truthyError t.error)).length : ℚ)) /
          (c8Store.length : ℚ)) :=
  ⟨by decide, C8_metrics_rates c8Store (by decide)⟩

/-- An existing but unsealed trace: no end time and no result. -/
def c9UnsealedTrace : Trace :=
  { workflow_steps := [], state_transitions := [], start_time := some 0,
    end_time := none, result := none, error := none }

/-- C9, counterexample.  The claim states that export returns a
failure indicator whenever the requested trace is absent or unsealed.
For a store holding an existing trace that is unsealed, the export
still assembles and returns an export document, because the trace
lookup does not inspect the end time or the result. -/
theorem C9_export_unsealed_counterexample :
    List.lookup "t1" [("t1", c9UnsealedTrace)] = some c9UnsealedTrace ∧
    c9UnsealedTrace.end_time = none ∧
    c9UnsealedTrace.result = none ∧
    (export_trace_to_json [("t1", c9UnsealedTrace)] "t1").isSome = true := by
  refine ⟨?_, rfl, rfl, ?_⟩ <;> decide

/-- C9, amended.  Export returns the failure indicator exactly when
the requested trace is absent from the store; an existing trace is
exported whether or not it has been sealed. -/
theorem C9_export_fails_iff_absent (store : List (String × Trace)) (tid : String) :
    export_trace_to_json store tid = none ↔ List.lookup tid store = none := by
  unfold export_trace_to_json get_trace
  cases h : List.lookup tid store <;> simp [h]
